import Mathlib

/-!
# Verification of the HDE web server (nisargshahh/web_server)

Shallow embedding of the socket layering (SimpleSocket → BindingSocket →
ListeningSocket), the abstract SimpleServer and the concrete TestServer,
translated from the C++ sources:

* `src/Networking/Sockets/SimpleSocket.hpp` / its `.cpp` part
* `src/unnamed/part_001` (BindingSocket.cpp)
* `src/Networking/Sockets/ListeningSocket.cpp`
* `src/Networking/Servers/SimpleServer.hpp` / its `.cpp` part
* `src/Networking/Servers/TestServer.cpp`, `src/unnamed/part_000` (TestServer.hpp)

OS calls (socket, bind, listen, accept, recv, send) are modelled by
environments that supply their results.  `exit(EXIT_FAILURE)` inside
`test_connection` is modelled by the `Except FatalExit` monad.  Fields that
C++ leaves uninitialized (`SimpleSocket::connection` before `set_connection`,
`BindingSocket::binding`, `TestServer::new_socket`) are modelled as explicit
parameters holding an arbitrary indeterminate value.
-/

namespace HDE

/-- Network constants from the system headers used by the sources. -/
def AF_INET : Int := 2

/-- SOCK_STREAM from the system headers. -/
def SOCK_STREAM : Int := 1

/-- INADDR_ANY from the system headers. -/
def INADDR_ANY : Nat := 0

/-- Host-to-network conversion of a 16-bit quantity (byte swap), as used for
`address.sin_port = htons(port)`. -/
def htons (x : Nat) : Nat := (x % 256) * 256 + (x / 256) % 256

/-- Host-to-network conversion of a 32-bit quantity (byte reversal), as used
for `address.sin_addr.s_addr = htonl(interface)`. -/
def htonl (x : Nat) : Nat :=
  (x % 256) * 16777216 + ((x / 256) % 256) * 65536 +
    ((x / 65536) % 256) * 256 + (x / 16777216) % 256

/-- The `struct sockaddr_in` populated by the `SimpleSocket` constructor. -/
structure SockAddrIn where
  sin_family : Int
  sin_port : Nat
  sin_addr : Nat
deriving Repr, DecidableEq

/-- Results of the OS calls made during server setup: `socket()`, `bind()`
and `listen()`. -/
structure SetupEnv where
  socketResult : Int
  bindResult : Int
  listenResult : Int
deriving Repr, DecidableEq

/-- The one fatal outcome: `exit(EXIT_FAILURE)` from `test_connection`. -/
inductive FatalExit where
  | exitFailure
deriving Repr, DecidableEq

/-- `SimpleSocket::test_connection`: `if (item_to_test < 0) { perror(...);
exit(EXIT_FAILURE); }`. -/
def test_connection (item_to_test : Int) : Except FatalExit Unit :=
  if item_to_test < 0 then Except.error FatalExit.exitFailure else Except.ok ()

/-- State of a `SimpleSocket` object: address structure, socket descriptor
and the `connection` status field. -/
structure SimpleSocket where
  address : SockAddrIn
  sock : Int
  connection : Int
deriving Repr, DecidableEq

/-- The `SimpleSocket` constructor: fills the address structure, creates the
socket and checks the descriptor with `test_connection`.  The member
`connection` is left uninitialized by the C++ constructor; `connectionInit`
stands for its indeterminate initial value. -/
def SimpleSocket.ctor (env : SetupEnv) (domain _service _protocol : Int)
    (port intf : Nat) (connectionInit : Int) : Except FatalExit SimpleSocket := do
  let address : SockAddrIn :=
    { sin_family := domain, sin_port := htons port, sin_addr := htonl intf }
  let sock := env.socketResult
  let _ ← test_connection sock
  Except.ok { address := address, sock := sock, connection := connectionInit }

/-- `SimpleSocket::get_sock`. -/
def SimpleSocket.get_sock (s : SimpleSocket) : Int := s.sock

/-- `SimpleSocket::get_address`. -/
def SimpleSocket.get_address (s : SimpleSocket) : SockAddrIn := s.address

/-- `SimpleSocket::set_connection`. -/
def SimpleSocket.set_connection (s : SimpleSocket) (con : Int) : SimpleSocket :=
  { s with connection := con }

/-- State of a `BindingSocket`: the base `SimpleSocket` plus the private
`binding` status member. -/
structure BindingSocket where
  base : SimpleSocket
  binding : Int
deriving Repr, DecidableEq

/-- `BindingSocket::connect_to_nw`: `return bind(sock, &address,
sizeof(address))`; the result of the OS `bind` call comes from the
environment. -/
def BindingSocket.connect_to_nw (env : SetupEnv) (_sock : Int)
    (_address : SockAddrIn) : Int := env.bindResult

/-- The `BindingSocket` constructor, translated line by line:
`set_connection(connect_to_nw(get_sock(), get_address()));
test_connection(binding);`.  Note the C++ tests the never-assigned member
`binding` (modelled by `bindingInit`), not the bind result, which was stored
into the base `connection` field. -/
def BindingSocket.ctor (env : SetupEnv) (domain service protocol : Int)
    (port intf : Nat) (connectionInit bindingInit : Int) :
    Except FatalExit BindingSocket := do
  let base ← SimpleSocket.ctor env domain service protocol port intf connectionInit
  let base := base.set_connection (BindingSocket.connect_to_nw env base.get_sock base.get_address)
  let _ ← test_connection bindingInit
  Except.ok { base := base, binding := bindingInit }

/-- `BindingSocket::get_binding`. -/
def BindingSocket.get_binding (b : BindingSocket) : Int := b.binding

/-- State of a `ListeningSocket`: the base `BindingSocket` plus `backlog`
and the `listening` status member. -/
structure ListeningSocket where
  base : BindingSocket
  backlog : Int
  listening : Int
deriving Repr, DecidableEq

/-- `ListeningSocket::start_listening`: `listening = listen(get_sock(),
backlog)`; the OS result comes from the environment. -/
def ListeningSocket.start_listening (env : SetupEnv) : Int := env.listenResult

/-- The `ListeningSocket` constructor: `backlog = bcklg; start_listening();
test_connection(listening);`. -/
def ListeningSocket.ctor (env : SetupEnv) (domain service protocol : Int)
    (port intf : Nat) (bcklg : Int) (connectionInit bindingInit : Int) :
    Except FatalExit ListeningSocket := do
  let base ← BindingSocket.ctor env domain service protocol port intf connectionInit bindingInit
  let listening := ListeningSocket.start_listening env
  let _ ← test_connection listening
  Except.ok { base := base, backlog := bcklg, listening := listening }

/-- `ListeningSocket::get_listening`. -/
def ListeningSocket.get_listening (l : ListeningSocket) : Int := l.listening

/-- `ListeningSocket::get_backlog`. -/
def ListeningSocket.get_backlog (l : ListeningSocket) : Int := l.backlog

/-- State of a `SimpleServer`: it owns exactly the `ListeningSocket`
allocated in its constructor. -/
structure SimpleServer where
  socket : ListeningSocket
deriving Repr, DecidableEq

/-- The `SimpleServer` constructor: `socket = new ListeningSocket(domain,
service, protocol, port, interface, bcklg);`. -/
def SimpleServer.ctor (env : SetupEnv) (domain service protocol : Int)
    (port intf : Nat) (bcklg : Int) (connectionInit bindingInit : Int) :
    Except FatalExit SimpleServer := do
  let sck ← ListeningSocket.ctor env domain service protocol port intf bcklg
    connectionInit bindingInit
  Except.ok { socket := sck }

/-- `SimpleServer::get_socket`. -/
def SimpleServer.get_socket (s : SimpleServer) : ListeningSocket := s.socket

/-- Size of the receive buffer `char buffer[30000]` declared in
TestServer.hpp. -/
def bufferSize : Nat := 30000

/-- The capacity literal passed to `recv(new_socket, buffer, 30000, 0)` in
`TestServer::acceptor`. -/
def recvCap : Nat := 30000

/-- Per-connection environment: the results of the OS calls made in one
iteration of the server loop.  `acceptResult` is what `accept()` returns;
`recvData` is `none` when `recv` fails with -1, and `some bytes` when the
client supplied `bytes` (of which `recv` delivers at most `recvCap`);
`sendResult` is what `send()` returns. -/
structure ConnEnv where
  acceptResult : Int
  recvData : Option (List Nat)
  sendResult : Int

/-- Observable per-connection events, in program order: the calls the
server performs on the OS and its pipeline stages. -/
inductive Ev where
  /-- `accept()` returned the given descriptor. -/
  | evAccept (fd : Int)
  /-- `memset(buffer, 0, sizeof(buffer))` cleared the whole buffer. -/
  | evMemset
  /-- `setsockopt(fd, SOL_SOCKET, SO_RCVTIMEO, ...)` with the given
  seconds/microseconds. -/
  | evSetTimeout (fd : Int) (sec usec : Nat)
  /-- `recv(fd, buffer, cap, 0)` was issued with the buffer holding `buf`. -/
  | evRecv (fd : Int) (cap : Nat) (buf : Nat → Nat)
  /-- The null-terminator store `buffer[bytes_read] = '\0'` at index `idx`. -/
  | evBufWrite (idx : Nat)
  /-- `close(fd)`. -/
  | evClose (fd : Int)
  /-- `TestServer::handler` ran; `nonempty` records whether
  `strlen(buffer) > 0`. -/
  | evHandle (nonempty : Bool)
  /-- `send(fd, response, strlen(response), 0)` wrote the given bytes. -/
  | evSend (fd : Int) (data : List Nat)
  /-- `shutdown(fd, SHUT_RDWR)`. -/
  | evShutdownBoth (fd : Int)

/-- The buffer content after `memset(buffer, 0, sizeof(buffer))`: every
index reads zero. -/
def memsetZero : Nat → Nat := fun _ => 0

/-- Overwrite the front of the buffer with the received bytes, as `recv`
does starting at offset 0. -/
def writeBytes (buf : Nat → Nat) (bytes : List Nat) : Nat → Nat :=
  fun i => bytes.getD i (buf i)

/-- Store one byte at one index, as `buffer[bytes_read] = '\0'` does. -/
def writeByte (buf : Nat → Nat) (i v : Nat) : Nat → Nat :=
  fun j => if j = i then v else buf j

/-- C `strlen` on the buffer: the number of consecutive nonzero bytes from
index `i`, scanning at most `fuel` cells. -/
def strlenGo (buf : Nat → Nat) : Nat → Nat → Nat
  | _, 0 => 0
  | i, fuel + 1 => if buf i = 0 then 0 else strlenGo buf (i + 1) fuel + 1

/-- `strlen(buffer)` for the 30000-byte receive buffer. -/
def strlen (buf : Nat → Nat) : Nat := strlenGo buf 0 bufferSize

/-- State of a `TestServer`: the base `SimpleServer`, the receive buffer
and the current connection descriptor `new_socket`. -/
structure TestServer where
  server : SimpleServer
  buffer : Nat → Nat
  new_socket : Int

/-- The TestServer constructor up to (but not including) the call to
`launch()`: `SimpleServer(AF_INET, SOCK_STREAM, 0, 3000, INADDR_ANY, 10)`
then `memset(buffer, 0, sizeof(buffer))`.  `newSocketInit` stands for the
indeterminate initial value of the uninitialized member `new_socket`. -/
def TestServer.init (env : SetupEnv) (connectionInit bindingInit newSocketInit : Int) :
    Except FatalExit TestServer := do
  let server ← SimpleServer.ctor env AF_INET SOCK_STREAM 0 3000 INADDR_ANY 10
    connectionInit bindingInit
  Except.ok { server := server, buffer := memsetZero, new_socket := newSocketInit }

/-- `TestServer::acceptor`, translated branch by branch from
TestServer.cpp lines 11-57: accept, early return on failure; otherwise
clear the buffer, set the 5-second receive timeout, `recv` up to 30000
bytes; on read failure or zero bytes close and return; otherwise store the
null terminator at index `bytes_read`. -/
def TestServer.acceptor (env : ConnEnv) (s : TestServer) : TestServer × List Ev :=
  let new_socket := env.acceptResult
  if new_socket < 0 then
    ({ s with new_socket := new_socket }, [Ev.evAccept new_socket])
  else
    let buf := memsetZero
    let pre := [Ev.evAccept new_socket, Ev.evMemset, Ev.evSetTimeout new_socket 5 0]
    match env.recvData with
    | none =>
      ({ s with new_socket := new_socket, buffer := buf },
        pre ++ [Ev.evRecv new_socket recvCap buf, Ev.evClose new_socket])
    | some bytes =>
      let received := bytes.take recvCap
      let bytes_read := received.length
      if bytes_read = 0 then
        ({ s with new_socket := new_socket, buffer := buf },
          pre ++ [Ev.evRecv new_socket recvCap buf, Ev.evClose new_socket])
      else
        let buf2 := writeByte (writeBytes buf received) bytes_read 0
        ({ s with new_socket := new_socket, buffer := buf2 },
          pre ++ [Ev.evRecv new_socket recvCap buf, Ev.evBufWrite bytes_read])

/-- `TestServer::handler`: logs the request if `strlen(buffer) > 0`, else
logs that an empty request was received; mutates nothing. -/
def TestServer.handler (s : TestServer) : TestServer × List Ev :=
  if 0 < strlen s.buffer then (s, [Ev.evHandle true]) else (s, [Ev.evHandle false])

/-- The response literal from `TestServer::responder`. -/
def response : String :=
  "HTTP/1.1 200 OK\r\nContent-Type: text/plain\r\nConnection: close\r\nContent-Length: 19\r\n\r\nHello from Server!\r\n"

/-- Bytes of a C string literal (ASCII code points). -/
def strBytes (s : String) : List Nat := s.data.map Char.toNat

/-- C `strlen` on a byte list: length of the prefix before the first NUL. -/
def cstrlen (bytes : List Nat) : Nat := (bytes.takeWhile (fun b => b ≠ 0)).length

/-- The bytes passed to `send(new_socket, response, strlen(response), 0)`:
the first `strlen(response)` bytes of the response literal. -/
def respBytes : List Nat := (strBytes response).take (cstrlen (strBytes response))

/-- `TestServer::responder`: sends the fixed response, then
`shutdown(new_socket, SHUT_RDWR)` and `close(new_socket)`.  The send result
from the environment only affects logging. -/
def TestServer.responder (_env : ConnEnv) (s : TestServer) : TestServer × List Ev :=
  (s, [Ev.evSend s.new_socket respBytes, Ev.evShutdownBoth s.new_socket,
    Ev.evClose s.new_socket])

/-- One iteration of `TestServer::launch`: `acceptor(); handler();
responder();` in sequence, unconditionally. -/
def TestServer.launchIteration (env : ConnEnv) (s : TestServer) : TestServer × List Ev :=
  let a := TestServer.acceptor env s
  let h := TestServer.handler a.1
  let r := TestServer.responder env h.1
  (r.1, a.2 ++ h.2 ++ r.2)

/-- The `while(true)` loop of `TestServer::launch`, run over a finite list
of per-connection environments (a finite prefix of the infinite loop). -/
def TestServer.launchRun : List ConnEnv → TestServer → TestServer × List Ev
  | [], s => (s, [])
  | e :: es, s =>
    let it := TestServer.launchIteration e s
    let rest := TestServer.launchRun es it.1
    (rest.1, it.2 ++ rest.2)

/-! ## Characterization lemmas for the setup chain -/

/-- The address structure built by the SimpleSocket constructor. -/
def builtAddr (d : Int) (port intf : Nat) : SockAddrIn :=
  ⟨d, htons port, htonl intf⟩

/-- The fully-built ListeningSocket produced by a successful setup chain. -/
def builtListeningSocket (env : SetupEnv) (d : Int) (port intf : Nat)
    (bcklg bindingInit : Int) : ListeningSocket :=
  ⟨⟨⟨builtAddr d port intf, env.socketResult, env.bindResult⟩, bindingInit⟩,
    bcklg, env.listenResult⟩

/-- Unfolding of the SimpleSocket constructor. -/
theorem simpleSocketCtor_eq (env : SetupEnv) (d sv p : Int) (port intf : Nat)
    (cInit : Int) :
    SimpleSocket.ctor env d sv p port intf cInit =
      if env.socketResult < 0 then Except.error FatalExit.exitFailure
      else Except.ok ⟨builtAddr d port intf, env.socketResult, cInit⟩ := by
  unfold SimpleSocket.ctor test_connection builtAddr
  by_cases h : env.socketResult < 0 <;> simp [h] <;> rfl

/-- Unfolding of the BindingSocket constructor: the fatal check reads the
indeterminate `bInit`, and the bind result lands in `connection`. -/
theorem bindingSocketCtor_eq (env : SetupEnv) (d sv p : Int) (port intf : Nat)
    (cInit bInit : Int) :
    BindingSocket.ctor env d sv p port intf cInit bInit =
      if env.socketResult < 0 then Except.error FatalExit.exitFailure
      else if bInit < 0 then Except.error FatalExit.exitFailure
      else Except.ok ⟨⟨builtAddr d port intf, env.socketResult, env.bindResult⟩, bInit⟩ := by
  unfold BindingSocket.ctor
  rw [simpleSocketCtor_eq]
  unfold test_connection
  by_cases h1 : env.socketResult < 0 <;> by_cases h2 : bInit < 0 <;>
    simp [h1, h2] <;> rfl

/-- Unfolding of the ListeningSocket constructor. -/
theorem listeningSocketCtor_eq (env : SetupEnv) (d sv p : Int) (port intf : Nat)
    (bcklg cInit bInit : Int) :
    ListeningSocket.ctor env d sv p port intf bcklg cInit bInit =
      if env.socketResult < 0 then Except.error FatalExit.exitFailure
      else if bInit < 0 then Except.error FatalExit.exitFailure
      else if env.listenResult < 0 then Except.error FatalExit.exitFailure
      else Except.ok (builtListeningSocket env d port intf bcklg bInit) := by
  unfold ListeningSocket.ctor
  rw [bindingSocketCtor_eq]
  unfold test_connection ListeningSocket.start_listening builtListeningSocket
  by_cases h1 : env.socketResult < 0 <;> by_cases h2 : bInit < 0 <;>
    by_cases h3 : env.listenResult < 0 <;> simp [h1, h2, h3] <;> rfl

/-- Unfolding of the TestServer constructor up to the launch call. -/
theorem TestServer.init_eq (env : SetupEnv) (cInit bInit nInit : Int) :
    TestServer.init env cInit bInit nInit =
      if env.socketResult < 0 then Except.error FatalExit.exitFailure
      else if bInit < 0 then Except.error FatalExit.exitFailure
      else if env.listenResult < 0 then Except.error FatalExit.exitFailure
      else Except.ok ⟨⟨builtListeningSocket env AF_INET 3000 INADDR_ANY 10 bInit⟩,
        memsetZero, nInit⟩ := by
  unfold TestServer.init SimpleServer.ctor
  rw [listeningSocketCtor_eq]
  by_cases h1 : env.socketResult < 0 <;> by_cases h2 : bInit < 0 <;>
    by_cases h3 : env.listenResult < 0 <;> simp [h1, h2, h3] <;> rfl

/-! ## Claim C5 -/

/-- C5: if OS socket creation returns a negative descriptor, or the listen
call fails, TestServer construction aborts with the failure exit
`exit(EXIT_FAILURE)` before the launch loop can ever run: there is no
recoverable path from a setup failure. -/
theorem setupFailureFatalBeforeLoop (env : SetupEnv) (cInit bInit nInit : Int)
    (h : env.socketResult < 0 ∨ env.listenResult < 0) :
    TestServer.init env cInit bInit nInit = Except.error FatalExit.exitFailure := by
  rw [TestServer.init_eq]
  rcases h with h | h
  · simp [h]
  · by_cases h1 : env.socketResult < 0
    · simp [h1]
    · by_cases h2 : bInit < 0 <;> simp [h1, h2, h]

/-- Witness for C5 at a concrete failing socket call. -/
theorem setupFailureFatalBeforeLoop_w :
    TestServer.init { socketResult := -1, bindResult := 0, listenResult := 0 } 0 0 0 =
      Except.error FatalExit.exitFailure :=
  setupFailureFatalBeforeLoop
    { socketResult := -1, bindResult := 0, listenResult := 0 } 0 0 0
    (Or.inl (by decide))

/-! ## Claim C10 -/

/-- C10: the `binding` member is never assigned: after a completed
construction, `get_binding` returns exactly the indeterminate initial value
of the member while the bind result was stored in the base `connection`
field via `set_connection`; and whether construction completes at all
depends on the descriptor and that indeterminate value, not on the result
of the bind call. -/
theorem bindingStatusUninitialized (env : SetupEnv) (d sv p : Int)
    (port intf : Nat) (cInit bInit : Int) :
    (∀ b, BindingSocket.ctor env d sv p port intf cInit bInit = Except.ok b →
      b.get_binding = bInit ∧ b.base.connection = env.bindResult) ∧
    ((∃ b, BindingSocket.ctor env d sv p port intf cInit bInit = Except.ok b) ↔
      0 ≤ env.socketResult ∧ 0 ≤ bInit) := by
  rw [bindingSocketCtor_eq]
  by_cases h1 : env.socketResult < 0
  · refine ⟨?_, ?_⟩
    · intro b hb
      simp [h1] at hb
    · simp [h1]
  · by_cases h2 : bInit < 0
    · refine ⟨?_, ?_⟩
      · intro b hb
        simp [h1, h2] at hb
      · simp [h1, h2]
    · refine ⟨?_, ?_⟩
      · intro b hb
        simp [h1, h2] at hb
        subst hb
        exact ⟨rfl, rfl⟩
      · simp [h1, h2]
        exact ⟨not_lt.mp h1, not_lt.mp h2⟩

/-- A concrete BindingSocket produced while bind failed. -/
def bindSample : BindingSocket :=
  ⟨⟨builtAddr AF_INET 3000 INADDR_ANY, 3, -1⟩, 7⟩

/-- Witness for C10: at a concrete input where bind returns -1 and the
garbage value is 7, get_binding reports 7 and the bind result sits in the
connection field. -/
theorem bindingStatusUninitialized_w :
    bindSample.get_binding = 7 ∧ bindSample.base.connection = -1 :=
  (bindingStatusUninitialized { socketResult := 3, bindResult := -1, listenResult := 0 }
    AF_INET SOCK_STREAM 0 3000 INADDR_ANY 5 7).1 bindSample (by rfl)

/-! ## Claim C1 -/

/-- C1: the code contradicts the claim at a concrete input: with `bind()`
returning -1 while the uninitialized `binding` member happens to hold 0,
the BindingSocket construction completes without any process termination
even though the bind failed (the failed result -1 sits in the `connection`
field), so a listen attempt follows a failed bind. -/
theorem bindFailureEscapesFatalCheck :
    BindingSocket.ctor { socketResult := 3, bindResult := -1, listenResult := 0 }
        AF_INET SOCK_STREAM 0 3000 INADDR_ANY 0 0 =
      Except.ok ⟨⟨builtAddr AF_INET 3000 INADDR_ANY, 3, -1⟩, 0⟩ := by rfl

/-! ## Characterization lemmas for the TestServer pipeline -/

/-- Recognizer for recv events, used to count reads per iteration. -/
def isRecvEv : Ev → Bool
  | Ev.evRecv _ _ _ => true
  | _ => false

/-- A setup environment where every OS call succeeds. -/
def setupOk : SetupEnv := ⟨3, 0, 0⟩

/-- The TestServer state right after a fully successful construction. -/
def sampleServer : TestServer :=
  ⟨⟨builtListeningSocket setupOk AF_INET 3000 INADDR_ANY 10 0⟩, memsetZero, -1⟩

/-- A connection environment whose accept call fails. -/
def envAcceptFail : ConnEnv := ⟨-1, none, 0⟩

/-- A connection environment with a successful accept and a 2-byte payload. -/
def envRecvOk : ConnEnv := ⟨7, some [72, 73], 0⟩

/-- A connection environment whose client sends exactly 30000 bytes. -/
def envFull : ConnEnv := ⟨7, some (List.replicate 30000 1), 0⟩

/-- Acceptor when `accept()` fails: log and return, nothing else happens. -/
theorem TestServer.acceptor_fail (env : ConnEnv) (s : TestServer)
    (h : env.acceptResult < 0) :
    TestServer.acceptor env s =
      ({ s with new_socket := env.acceptResult }, [Ev.evAccept env.acceptResult]) := by
  unfold TestServer.acceptor
  simp [h]

/-- Acceptor when accept succeeds but `recv` fails: clear the buffer, set the
timeout, read, then close the descriptor and return. -/
theorem TestServer.acceptor_recvFail (env : ConnEnv) (s : TestServer)
    (h : ¬ env.acceptResult < 0) (h2 : env.recvData = none) :
    TestServer.acceptor env s =
      ({ s with new_socket := env.acceptResult, buffer := memsetZero },
        [Ev.evAccept env.acceptResult, Ev.evMemset,
         Ev.evSetTimeout env.acceptResult 5 0,
         Ev.evRecv env.acceptResult recvCap memsetZero,
         Ev.evClose env.acceptResult]) := by
  unfold TestServer.acceptor
  simp [h, h2]

/-- Acceptor when accept succeeds but the read returns zero bytes. -/
theorem TestServer.acceptor_recvZero (env : ConnEnv) (s : TestServer)
    (h : ¬ env.acceptResult < 0) (bs : List Nat) (h2 : env.recvData = some bs)
    (h3 : (bs.take recvCap).length = 0) :
    TestServer.acceptor env s =
      ({ s with new_socket := env.acceptResult, buffer := memsetZero },
        [Ev.evAccept env.acceptResult, Ev.evMemset,
         Ev.evSetTimeout env.acceptResult 5 0,
         Ev.evRecv env.acceptResult recvCap memsetZero,
         Ev.evClose env.acceptResult]) := by
  unfold TestServer.acceptor
  simp [h, h2, h3]

/-- Acceptor when accept succeeds and the read returns data: the buffer is
cleared, overwritten with the delivered bytes and null-terminated at index
`bytes_read`. -/
theorem TestServer.acceptor_recvData (env : ConnEnv) (s : TestServer)
    (h : ¬ env.acceptResult < 0) (bs : List Nat) (h2 : env.recvData = some bs)
    (h3 : (bs.take recvCap).length ≠ 0) :
    TestServer.acceptor env s =
      ({ s with new_socket := env.acceptResult,
                buffer := writeByte (writeBytes memsetZero (bs.take recvCap))
                  (bs.take recvCap).length 0 },
        [Ev.evAccept env.acceptResult, Ev.evMemset,
         Ev.evSetTimeout env.acceptResult 5 0,
         Ev.evRecv env.acceptResult recvCap memsetZero,
         Ev.evBufWrite (bs.take recvCap).length]) := by
  unfold TestServer.acceptor
  simp [h, h2, h3]
  exact ⟨by decide, fun hbs => h3 (by simp [hbs])⟩

/-! ## Claim C3 -/

/-- C3: whenever the acceptor issues its recv call, the buffer it passes to
the read has been fully reset: every index of it reads zero, so no residual
bytes from a prior connection can be observed by the read. -/
theorem bufferClearedBeforeRead (env : ConnEnv) (s : TestServer) (fd : Int)
    (cap : Nat) (buf : Nat → Nat)
    (h : Ev.evRecv fd cap buf ∈ (TestServer.acceptor env s).2) (i : Nat) :
    buf i = 0 := by
  by_cases h1 : env.acceptResult < 0
  · rw [TestServer.acceptor_fail env s h1] at h
    simp at h
  · cases h2 : env.recvData with
    | none =>
      rw [TestServer.acceptor_recvFail env s h1 h2] at h
      simp at h
      obtain ⟨-, -, rfl⟩ := h
      rfl
    | some bs =>
      by_cases h3 : (bs.take recvCap).length = 0
      · rw [TestServer.acceptor_recvZero env s h1 bs h2 h3] at h
        simp at h
        obtain ⟨-, -, rfl⟩ := h
        rfl
      · rw [TestServer.acceptor_recvData env s h1 bs h2 h3] at h
        simp at h
        obtain ⟨-, -, rfl⟩ := h
        rfl

/-- Witness for C3: a concrete successful accept with a 2-byte payload
passes the all-zero buffer to recv. -/
theorem bufferClearedBeforeRead_w : memsetZero 123 = 0 :=
  bufferClearedBeforeRead envRecvOk sampleServer 7 recvCap memsetZero
    (by
      rw [TestServer.acceptor_recvData envRecvOk sampleServer (by decide)
        [72, 73] rfl (by decide)]
      simp [envRecvOk])
    123

/-! ## Claim C4 -/

/-- C4: for every state that reaches the respond stage, whatever the
request content in the buffer, the responder emits exactly the literal
response bytes (the full literal: strlen finds no embedded NUL), then the
SHUT_RDWR shutdown and then the close of the connection descriptor, in this
order. -/
theorem responderFixedResponse (env : ConnEnv) (s : TestServer) :
    (TestServer.responder env s).2 =
      [Ev.evSend s.new_socket (strBytes "HTTP/1.1 200 OK\r\nContent-Type: text/plain\r\nConnection: close\r\nContent-Length: 19\r\n\r\nHello from Server!\r\n"),
       Ev.evShutdownBoth s.new_socket, Ev.evClose s.new_socket] := by
  unfold TestServer.responder
  simp
  decide

/-! ## Claim C6 -/

/-- C6: the loop is strictly sequential: an iteration's trace is the
acceptor trace, then the handler trace, then the responder trace computed
from the successive states; a run over consecutive connections is the
concatenation of whole iterations; the responder trace ends with the close
of the current descriptor; and every acceptor trace starts with its own
accept event. -/
theorem loopStrictlySequential :
    (∀ env s, (TestServer.launchIteration env s).2 =
      (TestServer.acceptor env s).2 ++
        (TestServer.handler (TestServer.acceptor env s).1).2 ++
        (TestServer.responder env (TestServer.handler (TestServer.acceptor env s).1).1).2) ∧
    (∀ e es s, (TestServer.launchRun (e :: es) s).2 =
      (TestServer.launchIteration e s).2 ++
        (TestServer.launchRun es (TestServer.launchIteration e s).1).2) ∧
    (∀ env s, ((TestServer.responder env s).2).getLast? =
      some (Ev.evClose s.new_socket)) ∧
    (∀ env s, ((TestServer.acceptor env s).2).head? =
      some (Ev.evAccept env.acceptResult)) := by
  refine ⟨fun env s => rfl, fun e es s => rfl, fun env s => rfl, fun env s => ?_⟩
  by_cases h1 : env.acceptResult < 0
  · rw [TestServer.acceptor_fail env s h1]
    rfl
  · cases h2 : env.recvData with
    | none =>
      rw [TestServer.acceptor_recvFail env s h1 h2]
      rfl
    | some bs =>
      by_cases h3 : (bs.take recvCap).length = 0
      · rw [TestServer.acceptor_recvZero env s h1 bs h2 h3]
        rfl
      · rw [TestServer.acceptor_recvData env s h1 bs h2 h3]
        rfl

/-- Unfolding of the handler: state unchanged, one handle event recording
whether `strlen(buffer) > 0`. -/
theorem TestServer.handler_eq (s : TestServer) :
    TestServer.handler s = (s, [Ev.evHandle (decide (0 < strlen s.buffer))]) := by
  unfold TestServer.handler
  by_cases hb : 0 < strlen s.buffer <;> simp [hb]

/-- Unfolding of one launch iteration: the acceptor runs, then the handler,
then the responder, on the successive states. -/
theorem TestServer.launchIteration_eq (env : ConnEnv) (s : TestServer) :
    TestServer.launchIteration env s =
      ((TestServer.acceptor env s).1,
       (TestServer.acceptor env s).2 ++
         [Ev.evHandle (decide (0 < strlen ((TestServer.acceptor env s).1).buffer)),
          Ev.evSend ((TestServer.acceptor env s).1).new_socket respBytes,
          Ev.evShutdownBoth ((TestServer.acceptor env s).1).new_socket,
          Ev.evClose ((TestServer.acceptor env s).1).new_socket]) := by
  unfold TestServer.launchIteration TestServer.handler TestServer.responder
  by_cases hb : 0 < strlen ((TestServer.acceptor env s).1).buffer <;> simp [hb]

/-! ## Claim C7 -/

/-- C7: the TestServer is constructed through SimpleServer with exactly
AF_INET, SOCK_STREAM, protocol 0, port 3000, INADDR_ANY and backlog 10; a
completed construction carries the port in network byte order and the
INADDR_ANY interface in its address structure and backlog 10; and on every
successful accept the acceptor clears the buffer, sets the 5-second receive
timeout on the new descriptor and then issues exactly one recv bounded by
the 30000-byte capacity. -/
theorem testServerConfigAndTimeout :
    (∀ env cI bI nI, TestServer.init env cI bI nI =
      (SimpleServer.ctor env AF_INET SOCK_STREAM 0 3000 INADDR_ANY 10 cI bI).map
        (fun sv => ⟨sv, memsetZero, nI⟩)) ∧
    (∀ env cI bI nI t, TestServer.init env cI bI nI = Except.ok t →
      t.server.socket.base.base.address.sin_family = AF_INET ∧
      t.server.socket.base.base.address.sin_port = htons 3000 ∧
      t.server.socket.base.base.address.sin_addr = htonl INADDR_ANY ∧
      t.server.socket.backlog = 10) ∧
    htons 3000 = 47115 ∧
    (∀ env s, ¬ env.acceptResult < 0 → ∃ rest,
      (TestServer.acceptor env s).2 = Ev.evAccept env.acceptResult ::
        Ev.evMemset :: Ev.evSetTimeout env.acceptResult 5 0 ::
        Ev.evRecv env.acceptResult recvCap memsetZero :: rest) ∧
    recvCap = 30000 ∧
    (∀ env s, ((TestServer.acceptor env s).2.countP isRecvEv) ≤ 1) := by
  refine ⟨?_, ?_, by decide, ?_, rfl, ?_⟩
  · intro env cI bI nI
    unfold TestServer.init
    cases h : SimpleServer.ctor env AF_INET SOCK_STREAM 0 3000 INADDR_ANY 10 cI bI with
    | error e => rfl
    | ok sv => rfl
  · intro env cI bI nI t ht
    rw [TestServer.init_eq] at ht
    by_cases h1 : env.socketResult < 0
    · simp [h1] at ht
    · by_cases h2 : bI < 0
      · simp [h1, h2] at ht
      · by_cases h3 : env.listenResult < 0
        · simp [h1, h2, h3] at ht
        · simp [h1, h2, h3] at ht
          subst ht
          exact ⟨rfl, rfl, rfl, rfl⟩
  · intro env s h1
    cases h2 : env.recvData with
    | none =>
      refine ⟨[Ev.evClose env.acceptResult], ?_⟩
      rw [TestServer.acceptor_recvFail env s h1 h2]
    | some bs =>
      by_cases h3 : (bs.take recvCap).length = 0
      · refine ⟨[Ev.evClose env.acceptResult], ?_⟩
        rw [TestServer.acceptor_recvZero env s h1 bs h2 h3]
      · refine ⟨[Ev.evBufWrite (bs.take recvCap).length], ?_⟩
        rw [TestServer.acceptor_recvData env s h1 bs h2 h3]
  · intro env s
    by_cases h1 : env.acceptResult < 0
    · rw [TestServer.acceptor_fail env s h1]
      simp [List.countP_cons, isRecvEv]
    · cases h2 : env.recvData with
      | none =>
        rw [TestServer.acceptor_recvFail env s h1 h2]
        simp [List.countP_cons, isRecvEv]
      | some bs =>
        by_cases h3 : (bs.take recvCap).length = 0
        · rw [TestServer.acceptor_recvZero env s h1 bs h2 h3]
          simp [List.countP_cons, isRecvEv]
        · rw [TestServer.acceptor_recvData env s h1 bs h2 h3]
          simp [List.countP_cons, isRecvEv]

/-- Witness for C7: a fully successful construction yields exactly the
configured address and backlog. -/
theorem testServerConfigAndTimeout_w :
    sampleServer.server.socket.base.base.address.sin_family = AF_INET ∧
    sampleServer.server.socket.base.base.address.sin_port = htons 3000 ∧
    sampleServer.server.socket.base.base.address.sin_addr = htonl INADDR_ANY ∧
    sampleServer.server.socket.backlog = 10 :=
  testServerConfigAndTimeout.2.1 setupOk 0 0 (-1) sampleServer (by rfl)

/-! ## Claim C8 -/

/-- The acceptor never touches the owned SimpleServer. -/
theorem TestServer.acceptor_server (env : ConnEnv) (s : TestServer) :
    ((TestServer.acceptor env s).1).server = s.server := by
  by_cases h1 : env.acceptResult < 0
  · rw [TestServer.acceptor_fail env s h1]
  · cases h2 : env.recvData with
    | none => rw [TestServer.acceptor_recvFail env s h1 h2]
    | some bs =>
      by_cases h3 : (bs.take recvCap).length = 0
      · rw [TestServer.acceptor_recvZero env s h1 bs h2 h3]
      · rw [TestServer.acceptor_recvData env s h1 bs h2 h3]

/-- One launch iteration never touches the owned SimpleServer. -/
theorem TestServer.launchIteration_server (env : ConnEnv) (s : TestServer) :
    ((TestServer.launchIteration env s).1).server = s.server := by
  rw [TestServer.launchIteration_eq]
  exact TestServer.acceptor_server env s

/-- Any run of the launch loop never touches the owned SimpleServer. -/
theorem TestServer.launchRun_server (es : List ConnEnv) :
    ∀ s : TestServer, ((TestServer.launchRun es s).1).server = s.server := by
  induction es with
  | nil => intro s; rfl
  | cons e es ih =>
    intro s
    show ((TestServer.launchRun es (TestServer.launchIteration e s).1).1).server = s.server
    rw [ih, TestServer.launchIteration_server]

/-- C8: the listening socket is never replaced: a successful SimpleServer
construction stores exactly the ListeningSocket it constructed, get_socket
merely reads it, and the acceptor, handler, responder, and any run of the
launch loop leave the owned SimpleServer (hence its socket) unchanged. -/
theorem listeningSocketNeverReplaced :
    (∀ env s, ((TestServer.acceptor env s).1).server = s.server) ∧
    (∀ s, ((TestServer.handler s).1).server = s.server) ∧
    (∀ env s, ((TestServer.responder env s).1).server = s.server) ∧
    (∀ es s, ((TestServer.launchRun es s).1).server = s.server) ∧
    (∀ env d sv p port intf bcklg cI bI srv,
      SimpleServer.ctor env d sv p port intf bcklg cI bI = Except.ok srv →
      ∃ ls, ListeningSocket.ctor env d sv p port intf bcklg cI bI = Except.ok ls ∧
        srv.get_socket = ls) := by
  refine ⟨TestServer.acceptor_server, ?_, fun env s => rfl,
    fun es s => TestServer.launchRun_server es s, ?_⟩
  · intro s
    rw [TestServer.handler_eq]
  · intro env d sv p port intf bcklg cI bI srv hsrv
    unfold SimpleServer.ctor at hsrv
    cases h : ListeningSocket.ctor env d sv p port intf bcklg cI bI with
    | error e =>
      rw [h] at hsrv
      have h2 : Except.error (α := SimpleServer) e = Except.ok srv := hsrv
      exact Except.noConfusion h2
    | ok ls =>
      rw [h] at hsrv
      refine ⟨ls, rfl, ?_⟩
      have h2 : Except.ok (ε := FatalExit) (SimpleServer.mk ls) = Except.ok srv := hsrv
      simp at h2
      rw [← h2]
      rfl

/-- Witness for C8: the concrete successful setup stores exactly the
constructed listening socket. -/
theorem listeningSocketNeverReplaced_w :
    ∃ ls, ListeningSocket.ctor setupOk AF_INET SOCK_STREAM 0 3000 INADDR_ANY 10 0 0 =
        Except.ok ls ∧
      (SimpleServer.mk (builtListeningSocket setupOk AF_INET 3000 INADDR_ANY 10 0)).get_socket = ls :=
  listeningSocketNeverReplaced.2.2.2.2 setupOk AF_INET SOCK_STREAM 0 3000 INADDR_ANY
    10 0 0 (SimpleServer.mk (builtListeningSocket setupOk AF_INET 3000 INADDR_ANY 10 0))
    (by rfl)

/-! ## Claim C9 -/

/-- C9: the null-terminator store happens at index `bytes_read`, which is
bounded by the recv capacity; that capacity equals the buffer size 30000,
so the store can land at index 30000 (reached when a client sends 30000
bytes), which is not a valid index of the 30000-byte buffer: one byte out
of bounds, while any `bytes_read < 30000` stays in bounds. -/
theorem nullTerminatorBounds :
    (∀ env s n, Ev.evBufWrite n ∈ (TestServer.acceptor env s).2 → n ≤ recvCap) ∧
    recvCap = bufferSize ∧
    Ev.evBufWrite bufferSize ∈ (TestServer.acceptor envFull sampleServer).2 ∧
    ¬ bufferSize < bufferSize := by
  refine ⟨?_, rfl, ?_, by decide⟩
  · intro env s n hm
    by_cases h1 : env.acceptResult < 0
    · rw [TestServer.acceptor_fail env s h1] at hm
      simp at hm
    · cases h2 : env.recvData with
      | none =>
        rw [TestServer.acceptor_recvFail env s h1 h2] at hm
        simp at hm
      | some bs =>
        by_cases h3 : (bs.take recvCap).length = 0
        · rw [TestServer.acceptor_recvZero env s h1 bs h2 h3] at hm
          simp at hm
        · rw [TestServer.acceptor_recvData env s h1 bs h2 h3] at hm
          simp at hm
          subst hm
          exact min_le_left recvCap bs.length
  · have hlen : ((List.replicate 30000 (1 : Nat)).take recvCap).length = 30000 := by
      rw [List.length_take, List.length_replicate]
      exact min_self 30000
    rw [TestServer.acceptor_recvData envFull sampleServer (by decide)
      (List.replicate 30000 1) rfl (by rw [hlen]; decide)]
    show Ev.evBufWrite bufferSize ∈
      [Ev.evAccept envFull.acceptResult, Ev.evMemset,
       Ev.evSetTimeout envFull.acceptResult 5 0,
       Ev.evRecv envFull.acceptResult recvCap memsetZero,
       Ev.evBufWrite ((List.replicate 30000 (1 : Nat)).take recvCap).length]
    rw [hlen]
    have hbs : bufferSize = 30000 := rfl
    rw [hbs]
    simp

/-- Witness for C9: the boundary store index is within the recv capacity. -/
theorem nullTerminatorBounds_w : bufferSize ≤ recvCap :=
  nullTerminatorBounds.1 envFull sampleServer bufferSize nullTerminatorBounds.2.2.1

/-! ## Claim C2 -/

/-- C2 counterexample: at a concrete iteration whose accept call fails, the
handle and respond stages are not skipped: the iteration's trace contains
the handle event and the responder's send, shutdown and close on the
invalid descriptor -1, because launch invokes all three stages
unconditionally. -/
theorem handleRespondNotSkippedOnFailure :
    (TestServer.launchIteration envAcceptFail sampleServer).2 =
      [Ev.evAccept (-1), Ev.evHandle false, Ev.evSend (-1) respBytes,
       Ev.evShutdownBoth (-1), Ev.evClose (-1)] := by
  rfl

/-- C2 amended: when accept fails, or the read fails, or the read returns
zero bytes, the acceptor returns early, so no null-terminator store happens
in that iteration; but the handle and respond stages still run (launch
invokes them unconditionally after the acceptor returns), and the loop
proceeds to the next iteration without terminating. -/
theorem failedAcceptStillRunsHandleRespond (env : ConnEnv) (s : TestServer)
    (h : env.acceptResult < 0 ∨ env.recvData = none ∨ env.recvData = some []) :
    (∀ n, Ev.evBufWrite n ∉ (TestServer.acceptor env s).2) ∧
    (∃ b, (TestServer.launchIteration env s).2 =
      (TestServer.acceptor env s).2 ++
        [Ev.evHandle b,
         Ev.evSend ((TestServer.acceptor env s).1).new_socket respBytes,
         Ev.evShutdownBoth ((TestServer.acceptor env s).1).new_socket,
         Ev.evClose ((TestServer.acceptor env s).1).new_socket]) ∧
    (∀ es, (TestServer.launchRun (env :: es) s).2 =
      (TestServer.launchIteration env s).2 ++
        (TestServer.launchRun es (TestServer.launchIteration env s).1).2) := by
  refine ⟨?_, ?_, fun es => rfl⟩
  · intro n hm
    rcases h with h | h | h
    · rw [TestServer.acceptor_fail env s h] at hm
      simp at hm
    · by_cases h1 : env.acceptResult < 0
      · rw [TestServer.acceptor_fail env s h1] at hm
        simp at hm
      · rw [TestServer.acceptor_recvFail env s h1 h] at hm
        simp at hm
    · by_cases h1 : env.acceptResult < 0
      · rw [TestServer.acceptor_fail env s h1] at hm
        simp at hm
      · rw [TestServer.acceptor_recvZero env s h1 [] h (by simp)] at hm
        simp at hm
  · exact ⟨decide (0 < strlen ((TestServer.acceptor env s).1).buffer),
      by rw [TestServer.launchIteration_eq]⟩

/-- Witness for C2's amended theorem at the concrete failing accept. -/
theorem failedAcceptStillRunsHandleRespond_w :
    Ev.evBufWrite 0 ∉ (TestServer.acceptor envAcceptFail sampleServer).2 :=
  (failedAcceptStillRunsHandleRespond envAcceptFail sampleServer
    (Or.inl (by decide))).1 0

end HDE
